import Mathlib

/-!
# Verification of the Synergy half-hourly analysis pipeline

Shallow embedding of the data-transformation pipeline of `src/app.py`
(a Streamlit app that joins a half-hourly utility export with a static
time-of-use tariff table and a daily solar export).

Modelling conventions:
* Dates are modelled as natural day numbers: `pd.to_datetime` with an explicit
  fixed format is injective and order-preserving on valid date strings, and no
  settled property depends on the textual form of a date.
* Numeric cells that may hold NaN are modelled as `Option ℚ` (`none` = NaN);
  NaN is absorbing under arithmetic and skipped by `pandas` sums.
* Rates and energies are exact rationals (the decimal constants of the source
  written as quotients over powers of ten).
-/

namespace SynergyApp

/-- One data row of a raw Synergy CSV export (after `skiprows=5`), in the fixed
column layout `Date, Time, Usage already billed, Usage not yet billed,
Generation, Meter reading status` (app.py line 51).  The three numeric cells
may be NaN (`none`). -/
structure RawRow where
  date : ℕ
  time : String
  usage1 : Option ℚ
  usage2 : Option ℚ
  generation : Option ℚ
  status : String
deriving DecidableEq

/-- An uploaded (concatenated) Synergy table.  `hasU1` / `hasU2` record whether
the `Usage already billed` / `Usage not yet billed` column is present at all:
app.py lines 44-48 test column presence.  When a flag is `false` the
corresponding per-row cells carry no information (the real frame has no such
column) and are immediately overwritten with `0` by `fillCols`. -/
structure UploadedTable where
  hasU1 : Bool
  hasU2 : Bool
  rows : List RawRow
deriving DecidableEq

/-- `pandas.DataFrame.drop_duplicates()` with the default `keep='first'`:
keep the first occurrence of every row, drop later exact duplicates
(app.py lines 18 and 34). -/
def dropDup {α : Type} [DecidableEq α] : List α → List α
  | [] => []
  | a :: l => a :: dropDup (l.filter (fun b => b ≠ a))
termination_by l => l.length
decreasing_by
  simpa [Nat.lt_succ_iff] using List.length_filter_le _ l

/-- app.py lines 44-48: if a usage column is absent, create it filled with the
scalar `0`. -/
def fillCols (t : UploadedTable) : List RawRow :=
  let r1 := if t.hasU1 then t.rows else t.rows.map (fun r => { r with usage1 := some 0 })
  if t.hasU2 then r1 else r1.map (fun r => { r with usage2 := some 0 })

/-- app.py line 62 (and line 82): left-pad one `'0'` when the time string has
exactly 4 characters, otherwise leave the string unchanged. -/
def fixTime (t : String) : String :=
  if t.length == 4 then "0" ++ t else t

/-- A normalized interval record: columns selected and renamed to
`date, time, syn_usage, syn_generation` (app.py lines 51-62). -/
structure IntervalRow where
  date : ℕ
  time : String
  syn_usage : ℚ
  syn_generation : Option ℚ
deriving DecidableEq

/-- app.py lines 51-62 applied to one row: `fillna({'usage_1': 0, 'usage_2': 0})`,
`syn_usage = usage_1 + usage_2`, keep date/time/generation, normalize the time
string. -/
def toInterval (r : RawRow) : IntervalRow :=
  { date := r.date
    time := fixTime r.time
    syn_usage := r.usage1.getD 0 + r.usage2.getD 0
    syn_generation := r.generation }

/-- Code-point lexicographic comparison of character lists: the order Python
uses to compare `str` values, hence the order `sort_values` applies to the
`time` column. -/
def chLE : List Char → List Char → Bool
  | [], _ => true
  | _ :: _, [] => false
  | x :: xs, y :: ys =>
    if x.toNat < y.toNat then true
    else if y.toNat < x.toNat then false
    else chLE xs ys

/-- Python string comparison `a <= b` (code-point lexicographic). -/
def strLE (a b : String) : Bool := chLE a.data b.data

/-- The sort key of app.py line 64: ascending by `(date, time)`. -/
def rowLE (a b : IntervalRow) : Prop :=
  a.date < b.date ∨ (a.date = b.date ∧ strLE a.time b.time = true)

instance : DecidableRel rowLE := fun a b => by
  unfold rowLE; infer_instance

/-- app.py lines 44-64: the usage-normalizer stage (column fill, rename,
combine, time fix, sort by date and time). -/
def normalizeUsage (t : UploadedTable) : List IntervalRow :=
  List.insertionSort rowLE ((fillCols t).map toInterval)

/-- Two-digit zero-padded rendering, as the f-string field `{h:02d}`. -/
def two_digit (n : ℕ) : String :=
  if n < 10 then "0" ++ toString n else toString n

/-- The f-string of app.py line 75: `f"{h:02d}:{m:02d}"`. -/
def bucketLabel (h m : ℕ) : String :=
  two_digit h ++ ":" ++ two_digit m

/-- app.py line 75: `[f"{h:02d}:{m:02d}" for h in range(24) for m in (0, 30)]`. -/
def tou_time_col : List String :=
  (List.range 24).flatMap (fun h => [bucketLabel h 0, bucketLabel h 30])

/-- The flat home-plan rate `32.3719` of app.py line 76. -/
def home_plan_rate : ℚ := 323719 / 10000

/-- app.py line 76: the scalar rate broadcast over the 48-row index. -/
def home_plan_col : List ℚ :=
  List.replicate tou_time_col.length home_plan_rate

/-- app.py line 77: the midday-saver band list. -/
def midday_saver_col : List ℚ :=
  List.replicate 18 (236916 / 10000) ++ List.replicate 12 (86151 / 10000) ++
    List.replicate 12 (538446 / 10000) ++ List.replicate 6 (236916 / 10000)

/-- app.py line 78: the EV add-on band list. -/
def electric_vehicle_add_on_col : List ℚ :=
  List.replicate 12 (193841 / 10000) ++ List.replicate 6 (236916 / 10000) ++
    List.replicate 12 (86151 / 10000) ++ List.replicate 12 (538446 / 10000) ++
    List.replicate 4 (236916 / 10000) ++ List.replicate 2 (193841 / 10000)

/-- app.py line 79: the feed-in (debs) band list `[2]*30 + [10]*12 + [2]*6`. -/
def debs_col : List ℚ :=
  List.replicate 30 2 ++ List.replicate 12 10 ++ List.replicate 6 2

/-- One row of the static time-of-use tariff table. -/
structure TariffRow where
  time : String
  home_plan : ℚ
  midday_saver : ℚ
  electric_vehicle_add_on : ℚ
  debs : ℚ
deriving DecidableEq

/-- Row-wise pairing of the five equal-length columns handed to the
`pd.DataFrame` constructor of app.py lines 73-81. -/
def zipCols : List String → List ℚ → List ℚ → List ℚ → List ℚ → List TariffRow
  | t :: ts, x1 :: xs1, x2 :: xs2, x3 :: xs3, x4 :: xs4 =>
      ⟨t, x1, x2, x3, x4⟩ :: zipCols ts xs1 xs2 xs3 xs4
  | _, _, _, _, _ => []

/-- app.py lines 73-82: the static tariff table, including the redundant
re-padding of line 82 (`x if len(x)==5 else '0'+x`). -/
def tou_costs : List TariffRow :=
  (zipCols tou_time_col home_plan_col midday_saver_col
      electric_vehicle_add_on_col debs_col).map
    (fun r => { r with time := if r.time.length == 5 then r.time else "0" ++ r.time })

/-- app.py line 85: the `how='left'` merge on `time`.  The tariff side has
pairwise-distinct keys, so each interval row receives at most one match;
a miss leaves all rate cells NaN. -/
def tariffFor (t : String) : Option TariffRow :=
  tou_costs.find? (fun r => r.time == t)

/-- A priced interval record, app.py lines 85-91: the interval columns, the
four joined rate columns, and the four derived cost columns.  Rates and costs
are `Option ℚ` because a join miss yields NaN and NaN is absorbing under
multiplication. -/
structure PricedRow where
  date : ℕ
  time : String
  syn_usage : ℚ
  syn_generation : Option ℚ
  home_plan : Option ℚ
  midday_saver : Option ℚ
  electric_vehicle_add_on : Option ℚ
  debs : Option ℚ
  home_plan_costs : Option ℚ
  midday_saver_costs : Option ℚ
  electric_vehicle_add_on_costs : Option ℚ
  debs_feed_in_tariff : Option ℚ
deriving DecidableEq

/-- app.py lines 85-91 applied to one interval row. -/
def priceRow (r : IntervalRow) : PricedRow :=
  { date := r.date
    time := r.time
    syn_usage := r.syn_usage
    syn_generation := r.syn_generation
    home_plan := (tariffFor r.time).map (·.home_plan)
    midday_saver := (tariffFor r.time).map (·.midday_saver)
    electric_vehicle_add_on := (tariffFor r.time).map (·.electric_vehicle_add_on)
    debs := (tariffFor r.time).map (·.debs)
    home_plan_costs := (tariffFor r.time).map (fun c => c.home_plan * r.syn_usage)
    midday_saver_costs := (tariffFor r.time).map (fun c => c.midday_saver * r.syn_usage)
    electric_vehicle_add_on_costs :=
      (tariffFor r.time).map (fun c => c.electric_vehicle_add_on * r.syn_usage)
    debs_feed_in_tariff :=
      (tariffFor r.time).bind (fun c => r.syn_generation.map (fun g => c.debs * g)) }

/-- One row of the daily aggregate table (app.py lines 93-101). -/
structure DailyRow where
  date : ℕ
  syn_usage : ℚ
  syn_generation : ℚ
  home_plan_costs : ℚ
  midday_saver_costs : ℚ
  electric_vehicle_add_on_costs : ℚ
  debs_feed_in_tariff : ℚ
deriving DecidableEq

/-- `pandas` sum of a possibly-NaN column: NaN entries are skipped
(`skipna=True`, `min_count=0`), so an all-NaN group sums to `0`. -/
def nanSumQ (l : List (Option ℚ)) : ℚ :=
  (l.map (fun x => x.getD 0)).sum

/-- The list of distinct dates in ascending order: `groupby('date')` groups by
sorted key. -/
def groupDates (rows : List PricedRow) : List ℕ :=
  List.insertionSort (· ≤ ·) (rows.map (·.date)).dedup

/-- The aggregate row of one date group: app.py lines 94-101, summing the six
numeric columns over the rows of that date. -/
def dailyFor (rows : List PricedRow) (d : ℕ) : DailyRow :=
  { date := d
    syn_usage := (((rows.filter (fun r => r.date == d)).map (·.syn_usage))).sum
    syn_generation := nanSumQ ((rows.filter (fun r => r.date == d)).map (·.syn_generation))
    home_plan_costs := nanSumQ ((rows.filter (fun r => r.date == d)).map (·.home_plan_costs))
    midday_saver_costs :=
      nanSumQ ((rows.filter (fun r => r.date == d)).map (·.midday_saver_costs))
    electric_vehicle_add_on_costs :=
      nanSumQ ((rows.filter (fun r => r.date == d)).map (·.electric_vehicle_add_on_costs))
    debs_feed_in_tariff :=
      nanSumQ ((rows.filter (fun r => r.date == d)).map (·.debs_feed_in_tariff)) }

/-- app.py lines 93-101: group by date and aggregate. -/
def dailyAgg (rows : List PricedRow) : List DailyRow :=
  (groupDates rows).map (dailyFor rows)

/-- app.py lines 67-72: the supply-charge table (one row per plan, in minor
currency units). -/
def supply_charge : List (String × ℚ) :=
  [("home_plan", 1160505 / 10000), ("midday_saver", 1292269 / 10000),
   ("electric_vehicle_add_on", 1292269 / 10000)]

/-- app.py line 105: `supply_charge.loc[supply_charge['plan'] == plan,
'supply_charge'].values[0]`.  The positional `[0]` on the match set is
modelled by `Option.map` over `find?`; on the three plan names iterated by the
loop the lookup always succeeds. -/
def chargeOf (plan : String) : Option ℚ :=
  (supply_charge.find? (fun p => p.1 == plan)).map (·.2)

/-- app.py lines 104-106 applied to one daily row: add each plan's fixed
supply charge to that plan's daily cost column (once per daily row). -/
def addCharges (r : DailyRow) : DailyRow :=
  { r with
    home_plan_costs := r.home_plan_costs + (chargeOf "home_plan").getD 0
    midday_saver_costs := r.midday_saver_costs + (chargeOf "midday_saver").getD 0
    electric_vehicle_add_on_costs :=
      r.electric_vehicle_add_on_costs + (chargeOf "electric_vehicle_add_on").getD 0 }

/-- app.py lines 104-106: the per-plan supply charges are added to every row of
the daily table. -/
def addSupply (l : List DailyRow) : List DailyRow :=
  l.map addCharges

/-- app.py lines 42-108: `process_synergy_data`, returning the priced
half-hourly table and the daily table. -/
def process_synergy_data (t : UploadedTable) : List PricedRow × List DailyRow :=
  ((normalizeUsage t).map priceRow, addSupply (dailyAgg ((normalizeUsage t).map priceRow)))

/-- One row of the raw Sigenergy export (first sheet): `Date` parsed from the
8-digit `YYYYMMDD` integer (modelled as a day number), and the four named
daily energy columns (app.py lines 113-115). -/
structure SigRawRow where
  date : ℕ
  daily_solar_production : ℚ
  daily_consumption : ℚ
  daily_from_grid : ℚ
  daily_to_grid : ℚ
deriving DecidableEq

/-- One row of the normalized Sigenergy daily table (app.py lines 113-123):
the renamed source columns plus the four derived columns. -/
structure SigRow where
  date : ℕ
  sig_solar_production : ℚ
  sig_consumption : ℚ
  sig_from_grid : ℚ
  sig_to_grid : ℚ
  from_grid : ℚ
  to_grid : ℚ
  self_consumption : ℚ
  total_usage : ℚ
deriving DecidableEq

/-- app.py lines 111-123: `process_sigenergy_data`.  `from_grid`/`to_grid` are
identity copies, `self_consumption = sig_consumption - sig_from_grid`,
`total_usage = sig_consumption`. -/
def process_sigenergy_data (rows : List SigRawRow) : List SigRow :=
  rows.map (fun r =>
    { date := r.date
      sig_solar_production := r.daily_solar_production
      sig_consumption := r.daily_consumption
      sig_from_grid := r.daily_from_grid
      sig_to_grid := r.daily_to_grid
      from_grid := r.daily_from_grid
      to_grid := r.daily_to_grid
      self_consumption := r.daily_consumption - r.daily_from_grid
      total_usage := r.daily_consumption })

/-- app.py lines 125-127: the per-session pipeline output — the priced
half-hourly table, the daily table, and the normalized Sigenergy daily table.
No further merge between the Synergy and Sigenergy tables occurs anywhere in
the program. -/
def pipelineOutputs (syn : UploadedTable) (sig : List SigRawRow) :
    (List PricedRow × List DailyRow) × List SigRow :=
  (process_synergy_data syn, process_sigenergy_data sig)

/-- A raw Synergy time string as it appears in the CSV export: the hour is not
zero-padded (`0:00` .. `23:30`). -/
def rawTimeLabel (h m : ℕ) : String :=
  (if h < 10 then toString h else two_digit h) ++ ":" ++ two_digit m

/-- A one-day Synergy upload: all 48 half-hour intervals of day 7, each with
billed usage 1 kWh, unbilled usage 0 and generation 0. -/
def oneDayInput : UploadedTable :=
  { hasU1 := true
    hasU2 := true
    rows := (List.range 24).flatMap (fun h =>
      [{ date := 7, time := rawTimeLabel h 0, usage1 := some 1, usage2 := some 0,
         generation := some 0, status := "A" },
       { date := 7, time := rawTimeLabel h 30, usage1 := some 1, usage2 := some 0,
         generation := some 0, status := "A" }]) }

/-- A small concrete priced interval table: two intervals on date 3 and one
interval (with no tariff match, all cost cells NaN) on date 9. -/
def sampleRows : List PricedRow :=
  [⟨3, "00:00", 1, some 0, some 1, some 1, some 1, some 2,
      some 10, some 5, some 7, some 0⟩,
   ⟨3, "00:30", 2, some 0, some 1, some 1, some 1, some 2,
      some 20, some 6, some 8, some 1⟩,
   ⟨9, "01:00", 1, none, none, none, none, none, none, none, none, none⟩]

/-- `sampleRows` with its first two rows transposed. -/
def sampleRowsSwapped : List PricedRow :=
  [⟨3, "00:30", 2, some 0, some 1, some 1, some 1, some 2,
      some 20, some 6, some 8, some 1⟩,
   ⟨3, "00:00", 1, some 0, some 1, some 1, some 1, some 2,
      some 10, some 5, some 7, some 0⟩,
   ⟨9, "01:00", 1, none, none, none, none, none, none, none, none, none⟩]

/-! Batteries marks the `Rat` field operations `@[irreducible]`; the concrete
evaluations below reset them to the default transparency so that `decide` can
evaluate rational arithmetic. -/
attribute [local semireducible] Rat.add Rat.mul Rat.inv Rat.sub Rat.ofScientific

set_option maxRecDepth 40000

/-- Claim C2: the time-normalization step is idempotent — a 5-character time
string is returned unchanged, a 4-character time string gains exactly one
leading `'0'`, and applying the normalization twice equals applying it once
(for every string). -/
theorem fixTime_idempotent (t : String) :
    (t.length = 5 → fixTime t = t) ∧
    (t.length = 4 → fixTime t = "0" ++ t) ∧
    fixTime (fixTime t) = fixTime t := by
  refine ⟨fun h5 => ?_, fun h4 => ?_, ?_⟩
  · simp [fixTime, h5]
  · simp [fixTime, h4]
  · by_cases h : t.length = 4
    · have h1 : ("0" ++ t).length = 5 := by
        rw [String.length_append, h]
        decide
      simp [fixTime, h, h1]
    · simp [fixTime, h]

/-- Witness for C2 at the spec's own examples: `"10:30"` is left unchanged and
`"0:30"` gains one leading zero, after which normalization is a no-op. -/
theorem fixTime_idempotent_witness :
    fixTime "10:30" = "10:30" ∧ fixTime "0:30" = "0" ++ "0:30" ∧
    fixTime (fixTime "0:30") = fixTime "0:30" :=
  ⟨(fixTime_idempotent "10:30").1 (by decide),
   (fixTime_idempotent "0:30").2.1 (by decide),
   (fixTime_idempotent "0:30").2.2⟩

/-- Claim C3: the constructed tariff table has exactly 48 rows; its time-bucket
keys are pairwise distinct, zero-padded 5-character labels covering every
half-hour value from `"00:00"` through `"23:30"` in order with no gaps; and
every rate column (`home_plan`, `midday_saver`, `electric_vehicle_add_on`,
`debs`) supplies a value for all 48 buckets.  The construction takes no input
(`tou_costs` is a closed constant), so it always produces this same table. -/
theorem tou_costs_covers_all_buckets :
    tou_costs.length = 48 ∧
    (tou_costs.map (·.time)).Nodup ∧
    (∀ t ∈ tou_costs.map (·.time), t.length = 5) ∧
    tou_costs.map (·.time) =
      ["00:00", "00:30", "01:00", "01:30", "02:00", "02:30",
       "03:00", "03:30", "04:00", "04:30", "05:00", "05:30",
       "06:00", "06:30", "07:00", "07:30", "08:00", "08:30",
       "09:00", "09:30", "10:00", "10:30", "11:00", "11:30",
       "12:00", "12:30", "13:00", "13:30", "14:00", "14:30",
       "15:00", "15:30", "16:00", "16:30", "17:00", "17:30",
       "18:00", "18:30", "19:00", "19:30", "20:00", "20:30",
       "21:00", "21:30", "22:00", "22:30", "23:00", "23:30"] ∧
    home_plan_col.length = 48 ∧ midday_saver_col.length = 48 ∧
    electric_vehicle_add_on_col.length = 48 ∧ debs_col.length = 48 := by
  refine ⟨by decide, by decide, by decide, by decide, by decide, by decide, by decide, by decide⟩

/-- Counterexample for C4: the claim locates the elevated feed-in tier in a
midday window, but the elevated value does not hold at noon.  The `debs`
column takes only the values 2 and 10; the noon bucket `"12:00"` carries the
low value 2, while the elevated value 10 first holds at `"15:00"`. -/
theorem debs_not_elevated_at_noon :
    (tariffFor "12:00").map (·.debs) = some 2 ∧
    (tariffFor "15:00").map (·.debs) = some 10 ∧
    (∀ r ∈ tou_costs, r.debs = 2 ∨ r.debs = 10) ∧
    (2 : ℚ) < 10 := by
  refine ⟨by decide, by decide, by decide, by decide⟩

/-- Claim C4 as amended: the feed-in (`debs`) rate column is a two-tier flat
schedule taking exactly the two distinct values 2 and 10; the elevated value
10 holds precisely on the contiguous run of buckets from `"15:00"` through
`"20:30"` — an afternoon/evening window, not a midday one — and the single
lower flat value 2 holds on every other bucket. -/
theorem debs_two_tier_afternoon_window :
    (∀ r ∈ tou_costs, r.debs = 2 ∨ r.debs = 10) ∧
    (∃ r ∈ tou_costs, r.debs = 2) ∧
    (∃ r ∈ tou_costs, r.debs = 10) ∧
    (∀ r ∈ tou_costs,
      (r.debs = 10 ↔ (strLE "15:00" r.time = true ∧ strLE r.time "20:30" = true))) := by
  refine ⟨by decide, by decide, by decide, by decide⟩

/-- Claim C1: for every accepted input table, the normalized output contains,
for each input row, an interval record whose combined usage `syn_usage` is
`usage_1 + usage_2`, where a NaN billed/unbilled cell counts as 0 and an
entirely absent billed/unbilled column counts as an all-zero column. -/
theorem syn_usage_combines_billed_unbilled (t : UploadedTable) (r : RawRow)
    (h : r ∈ t.rows) :
    ({ date := r.date
       time := fixTime r.time
       syn_usage := ((if t.hasU1 then r.usage1 else some 0).getD 0) +
         ((if t.hasU2 then r.usage2 else some 0).getD 0)
       syn_generation := r.generation } : IntervalRow) ∈ normalizeUsage t := by
  unfold normalizeUsage
  rw [(List.perm_insertionSort _ _).mem_iff]
  obtain ⟨h1, h2, rows⟩ := t
  cases h1 <;> cases h2 <;>
    simp only [fillCols, Bool.false_eq_true, if_false, if_true, List.map_map] <;>
    exact List.mem_map.mpr ⟨r, h, by simp [toInterval]⟩

/-- Witness for C1 at the spec's property instance `usage_1 = NaN, usage_2 = 5`:
the normalized table contains the record with `syn_usage = 5`. -/
theorem syn_usage_combines_witness :
    ({ date := 0, time := "00:30", syn_usage := 5, syn_generation := some 0 } :
        IntervalRow) ∈
      normalizeUsage ⟨true, true, [⟨0, "0:30", none, some 5, some 0, "A"⟩]⟩ := by
  have h := syn_usage_combines_billed_unbilled
    ⟨true, true, [⟨0, "0:30", none, some 5, some 0, "A"⟩]⟩
    ⟨0, "0:30", none, some 5, some 0, "A"⟩ (by decide)
  have e : ({ date := 0
              time := fixTime "0:30"
              syn_usage := ((if true then (none : Option ℚ) else some 0).getD 0) +
                ((if true then some (5 : ℚ) else some 0).getD 0)
              syn_generation := some 0 } : IntervalRow) =
      { date := 0, time := "00:30", syn_usage := 5, syn_generation := some 0 } := by
    decide
  exact e ▸ h

/-- Unfolding equation of `dropDup` on a cons cell. -/
theorem dropDup_cons {α : Type} [DecidableEq α] (a : α) (l : List α) :
    dropDup (a :: l) = a :: dropDup (l.filter (fun b => b ≠ a)) := by
  rw [dropDup]

/-- Dropping duplicates ignores an appended block whose members already occur:
in particular a second copy of the whole list. -/
theorem dropDup_append_self {α : Type} [DecidableEq α] (l : List α) :
    dropDup (l ++ l) = dropDup l := by
  suffices h : ∀ (n : ℕ) (l m : List α), l.length ≤ n → (∀ a ∈ m, a ∈ l) →
      dropDup (l ++ m) = dropDup l from h l.length l l le_rfl (fun a ha => ha)
  intro n
  induction n with
  | zero =>
    intro l m hl hm
    have hl0 : l = [] := List.length_eq_zero.mp (Nat.le_zero.mp hl)
    subst hl0
    have hm0 : m = [] :=
      List.eq_nil_iff_forall_not_mem.mpr (fun a ha => (List.not_mem_nil a) (hm a ha))
    subst hm0
    rfl
  | succ n ih =>
    intro l m hl hm
    match l with
    | [] =>
      have hm0 : m = [] :=
        List.eq_nil_iff_forall_not_mem.mpr (fun a ha => (List.not_mem_nil a) (hm a ha))
      subst hm0
      rfl
    | a :: l2 =>
      show dropDup (a :: (l2 ++ m)) = dropDup (a :: l2)
      rw [dropDup_cons, dropDup_cons, List.filter_append]
      have hsub : ∀ b ∈ m.filter (fun b => b ≠ a), b ∈ l2.filter (fun b => b ≠ a) := by
        intro b hb
        rcases List.mem_filter.mp hb with ⟨hbm, hba⟩
        refine List.mem_filter.mpr ⟨?_, hba⟩
        rcases List.mem_cons.mp (hm b hbm) with h1 | h1
        · exact absurd h1 (by simpa using hba)
        · exact h1
      have hlen : (l2.filter (fun b => b ≠ a)).length ≤ n :=
        le_trans (List.length_filter_le _ _) (Nat.lt_succ_iff.mp (Nat.lt_of_lt_of_le (Nat.lt_succ_self _) hl))
      rw [ih _ _ hlen hsub]

/-- Claim C6: concatenating two copies of the same uploaded usage file and
dropping exact duplicate rows yields the same pipeline output (both the priced
half-hourly table and the daily table) as processing a single copy of the
file, which itself passes through the same duplicate-dropping step. -/
theorem reupload_roundtrip (f : UploadedTable) :
    process_synergy_data { f with rows := dropDup (f.rows ++ f.rows) } =
      process_synergy_data { f with rows := dropDup f.rows } := by
  rw [dropDup_append_self]

/-- Claim C10: the solar normalizer computes exactly one self-consumption
strategy, variant B — `self_consumption = sig_consumption - sig_from_grid` —
with `from_grid`/`to_grid` identity copies of the export's from-grid/to-grid
columns and `total_usage = sig_consumption`; each input row yields exactly the
one output row below, so no alternative (production − to-grid) strategy is
computed anywhere. -/
theorem sig_self_consumption_variant_b (rows : List SigRawRow) (i : ℕ)
    (h : i < rows.length) :
    (process_sigenergy_data rows).length = rows.length ∧
    (process_sigenergy_data rows)[i]? = some
      { date := rows[i].date
        sig_solar_production := rows[i].daily_solar_production
        sig_consumption := rows[i].daily_consumption
        sig_from_grid := rows[i].daily_from_grid
        sig_to_grid := rows[i].daily_to_grid
        from_grid := rows[i].daily_from_grid
        to_grid := rows[i].daily_to_grid
        self_consumption := rows[i].daily_consumption - rows[i].daily_from_grid
        total_usage := rows[i].daily_consumption } := by
  constructor
  · simp [process_sigenergy_data]
  · simp [process_sigenergy_data, List.getElem?_eq_getElem, h]

/-- Witness for C10 on a concrete row where the two candidate strategies
disagree: consumption 5, from-grid 1, production 10, to-grid 3.  The computed
self-consumption is `5 - 1` (variant B), which differs from the alternative
`10 - 3` (variant A). -/
theorem sig_variant_b_witness :
    (process_sigenergy_data [⟨5, 10, 5, 1, 3⟩]).length = 1 ∧
    (process_sigenergy_data [⟨5, 10, 5, 1, 3⟩])[0]? =
      some ⟨5, 10, 5, 1, 3, 1, 3, 5 - 1, 5⟩ ∧
    (5 : ℚ) - 1 ≠ 10 - 3 :=
  ⟨(sig_self_consumption_variant_b [⟨5, 10, 5, 1, 3⟩] 0 (by decide)).1,
   (sig_self_consumption_variant_b [⟨5, 10, 5, 1, 3⟩] 0 (by decide)).2,
   by decide⟩

/-- Counterexample for C8: the program produces no merged daily output at all.
On a concrete session whose daily usage table has exactly date 1 and whose
solar export has exactly date 2, the only solar-bearing output table
(`process_sigenergy_data`) contains no record for date 1 — so the unmatched
daily usage record does not "appear in the merged daily output with missing
solar fields"; it appears only in the separate daily usage table. -/
theorem no_merged_daily_output :
    ((pipelineOutputs ⟨true, true, [⟨1, "10:00", some 1, some 0, some 0, "A"⟩]⟩
        [⟨2, 10, 5, 1, 3⟩]).1.2.map (·.date) = [1]) ∧
    ((pipelineOutputs ⟨true, true, [⟨1, "10:00", some 1, some 0, some 0, "A"⟩]⟩
        [⟨2, 10, 5, 1, 3⟩]).2.map (·.date) = [2]) ∧
    ¬ (1 ∈ (pipelineOutputs ⟨true, true, [⟨1, "10:00", some 1, some 0, some 0, "A"⟩]⟩
        [⟨2, 10, 5, 1, 3⟩]).2.map (·.date)) := by
  refine ⟨by decide, by decide, by decide⟩

/-- Claim C8 as amended: no left-join onto the Daily Aggregator output exists.
The normalized solar table is computed independently of the Synergy input and
carries exactly the solar export's dates (one output row per export row), and
the daily usage table is computed independently of the solar input — so a
daily usage record with no matching solar date is simply retained, unmerged,
in the separate daily table rather than being dropped. -/
theorem solar_table_not_joined (syn : UploadedTable) (sig : List SigRawRow) :
    (pipelineOutputs syn sig).2.map (·.date) = sig.map (·.date) ∧
    (pipelineOutputs syn sig).1 = process_synergy_data syn ∧
    (pipelineOutputs syn sig).2 = process_sigenergy_data sig := by
  refine ⟨?_, rfl, rfl⟩
  simp [pipelineOutputs, process_sigenergy_data, List.map_map]

/-- Looking a date up in a daily table built by mapping a date-preserving row
constructor over a date list returns the constructor's row for that date. -/
theorem find_date_in_map {g : ℕ → DailyRow} (hg : ∀ x, (g x).date = x) :
    ∀ (l : List ℕ) (d : ℕ), d ∈ l →
      (l.map g).find? (fun q => q.date == d) = some (g d) := by
  intro l
  induction l with
  | nil => intro d hd; exact absurd hd (List.not_mem_nil d)
  | cons x xs ih =>
    intro d hd
    by_cases hxd : x = d
    · subst hxd
      rw [List.map_cons, List.find?_cons_of_pos _ (by simp [hg])]
    · rcases List.mem_cons.mp hd with h | h
      · exact absurd h.symm hxd
      · rw [List.map_cons, List.find?_cons_of_neg _ (by simp [hg, hxd]), ih d h]

/-- The sorted distinct date list of a grouped aggregation is invariant under
permutation of the input rows. -/
theorem groupDates_perm (rows rows' : List PricedRow) (hp : rows.Perm rows') :
    groupDates rows = groupDates rows' := by
  have h1 : ((rows.map (·.date)).dedup).Perm ((rows'.map (·.date)).dedup) :=
    (hp.map _).dedup
  have h2 : (groupDates rows).Perm (groupDates rows') :=
    (List.perm_insertionSort _ _).trans (h1.trans (List.perm_insertionSort _ _).symm)
  exact List.eq_of_perm_of_sorted h2
    (List.sorted_insertionSort _ _) (List.sorted_insertionSort _ _)

/-- One date group's aggregate row is invariant under permutation of the
input rows. -/
theorem dailyFor_congr_perm (rows rows' : List PricedRow) (hp : rows.Perm rows')
    (d : ℕ) : dailyFor rows d = dailyFor rows' d := by
  have hg : (rows.filter (fun r => r.date == d)).Perm
      (rows'.filter (fun r => r.date == d)) := hp.filter _
  unfold dailyFor nanSumQ
  rw [List.Perm.sum_eq (hg.map (fun x => x.syn_usage)),
    List.Perm.sum_eq ((hg.map (fun x => x.syn_generation)).map (fun x => x.getD 0)),
    List.Perm.sum_eq ((hg.map (fun x => x.home_plan_costs)).map (fun x => x.getD 0)),
    List.Perm.sum_eq ((hg.map (fun x => x.midday_saver_costs)).map (fun x => x.getD 0)),
    List.Perm.sum_eq
      ((hg.map (fun x => x.electric_vehicle_add_on_costs)).map (fun x => x.getD 0)),
    List.Perm.sum_eq ((hg.map (fun x => x.debs_feed_in_tariff)).map (fun x => x.getD 0))]

/-- The daily stage as one map over the grouped dates. -/
theorem addSupply_dailyAgg_eq_map (rows : List PricedRow) :
    addSupply (dailyAgg rows) =
      (groupDates rows).map (fun x => addCharges (dailyFor rows x)) := by
  simp [addSupply, dailyAgg, List.map_map]

/-- Claim C5: daily aggregation is additive and order-independent.  The daily
table is invariant under permutation of the priced interval rows; for every
date `d` present in the table, the daily row found for `d` is the aggregate of
exactly the intervals of that date, and for each plan its daily cost minus
that plan's fixed supply charge (added exactly once per day) equals the sum of
that plan's per-interval cost column over the intervals of date `d` (the
feed-in column, to which no charge is added, equals its interval sum
directly). -/
theorem daily_agg_additive_order_independent (rows rows' : List PricedRow)
    (hp : rows.Perm rows') (d : ℕ) (hd : d ∈ rows.map (·.date)) :
    addSupply (dailyAgg rows) = addSupply (dailyAgg rows') ∧
    (addSupply (dailyAgg rows)).find? (fun q => q.date == d) =
      some (addCharges (dailyFor rows d)) ∧
    (addCharges (dailyFor rows d)).home_plan_costs - 1160505 / 10000 =
      nanSumQ ((rows.filter (fun r => r.date == d)).map (·.home_plan_costs)) ∧
    (addCharges (dailyFor rows d)).midday_saver_costs - 1292269 / 10000 =
      nanSumQ ((rows.filter (fun r => r.date == d)).map (·.midday_saver_costs)) ∧
    (addCharges (dailyFor rows d)).electric_vehicle_add_on_costs - 1292269 / 10000 =
      nanSumQ ((rows.filter (fun r => r.date == d)).map (·.electric_vehicle_add_on_costs)) ∧
    (addCharges (dailyFor rows d)).debs_feed_in_tariff =
      nanSumQ ((rows.filter (fun r => r.date == d)).map (·.debs_feed_in_tariff)) := by
  have hc1 : (chargeOf "home_plan").getD 0 = (1160505 / 10000 : ℚ) := by decide
  have hc2 : (chargeOf "midday_saver").getD 0 = (1292269 / 10000 : ℚ) := by decide
  have hc3 : (chargeOf "electric_vehicle_add_on").getD 0 = (1292269 / 10000 : ℚ) := by decide
  refine ⟨?_, ?_, ?_, ?_, ?_, ?_⟩
  · have h3 : dailyAgg rows = dailyAgg rows' := by
      unfold dailyAgg
      rw [groupDates_perm rows rows' hp]
      exact List.map_congr_left (fun x _ => dailyFor_congr_perm rows rows' hp x)
    rw [h3]
  · have hd2 : d ∈ groupDates rows := by
      unfold groupDates
      rw [(List.perm_insertionSort _ _).mem_iff]
      exact List.mem_dedup.mpr hd
    rw [addSupply_dailyAgg_eq_map]
    exact find_date_in_map (fun x => rfl) _ d hd2
  · simp only [addCharges, dailyFor, hc1]
    exact add_sub_cancel_right _ _
  · simp only [addCharges, dailyFor, hc2]
    exact add_sub_cancel_right _ _
  · simp only [addCharges, dailyFor, hc3]
    exact add_sub_cancel_right _ _
  · rfl

/-- Witness for C5 on `sampleRows` (dates 3, 3, 9) and its transposition:
date 3 is looked up successfully, its home-plan daily cost minus the supply
charge is the interval sum, and the whole daily table is unchanged by the
transposition. -/
theorem daily_agg_witness :
    (addSupply (dailyAgg sampleRows)).find? (fun q => q.date == 3) =
      some (addCharges (dailyFor sampleRows 3)) ∧
    (addCharges (dailyFor sampleRows 3)).home_plan_costs - 1160505 / 10000 =
      nanSumQ ((sampleRows.filter (fun r => r.date == 3)).map (·.home_plan_costs)) ∧
    addSupply (dailyAgg sampleRows) = addSupply (dailyAgg sampleRowsSwapped) := by
  have h := daily_agg_additive_order_independent sampleRows sampleRowsSwapped
    (List.Perm.swap _ _ _) 3 (by decide)
  exact ⟨h.2.1, h.2.2.1, h.1⟩

/-- Claim C7: end-to-end scenario.  For the input holding exactly the 48
half-hour intervals of one date, each with usage 1 kWh and generation 0, the
home-plan daily cost for that date equals 48 times the flat home-plan rate
32.3719 plus the home-plan supply charge 116.0505 (in minor currency units),
and that per-bucket total agrees with the sum of the home-plan column of the
fixed rate table. -/
theorem end_to_end_home_plan_cost :
    ((process_synergy_data oneDayInput).2.find? (fun q => q.date == 7)).map
        (·.home_plan_costs) =
      some (48 * (323719 / 10000 : ℚ) + 1160505 / 10000) ∧
    (tou_costs.map (·.home_plan)).sum = 48 * (323719 / 10000 : ℚ) := by
  refine ⟨by decide, by decide⟩

/-- Counterexample for C9: a date whose intervals all miss the tariff table
does not get an all-zero cost row.  With the single unmatched interval
`(date 4, time "99:99", usage 1)`, the daily home-plan cost is the supply
charge 116.0505, which is nonzero — the claim's "all-zero cost values for
every plan" fails. -/
theorem unmatched_day_not_all_zero :
    ((process_synergy_data ⟨true, true,
          [⟨4, "99:99", some 1, some 0, some 0, "A"⟩]⟩).2.find?
        (fun q => q.date == 4)).map (·.home_plan_costs) =
      some (1160505 / 10000) ∧
    (1160505 / 10000 : ℚ) ≠ 0 := by
  refine ⟨by decide, by decide⟩

/-- Claim C9 as amended: for every input in which some date's intervals all
have time buckets matching zero tariff rows, the pipeline still succeeds and
the daily row for that date carries zero aggregated interval cost, so each
plan's daily cost equals exactly that plan's fixed supply charge (and the
feed-in total is zero): the join miss propagates as NaN cost cells that the
aggregation sums to zero before the charges are added. -/
theorem unmatched_day_costs_equal_supply_charges (t : UploadedTable) (d : ℕ)
    (hd : d ∈ (normalizeUsage t).map (·.date))
    (hmiss : ∀ r ∈ normalizeUsage t, r.date = d → tariffFor r.time = none) :
    ((process_synergy_data t).2.find? (fun q => q.date == d)).map
        (fun q => (q.home_plan_costs, q.midday_saver_costs,
          q.electric_vehicle_add_on_costs, q.debs_feed_in_tariff)) =
      some (1160505 / 10000, 1292269 / 10000, 1292269 / 10000, 0) := by
  have hc1 : (chargeOf "home_plan").getD 0 = (1160505 / 10000 : ℚ) := by decide
  have hc2 : (chargeOf "midday_saver").getD 0 = (1292269 / 10000 : ℚ) := by decide
  have hc3 : (chargeOf "electric_vehicle_add_on").getD 0 = (1292269 / 10000 : ℚ) := by decide
  have hdates : ((normalizeUsage t).map priceRow).map (·.date) =
      (normalizeUsage t).map (·.date) := by
    rw [List.map_map]; rfl
  have hd2 : d ∈ groupDates ((normalizeUsage t).map priceRow) := by
    unfold groupDates
    rw [(List.perm_insertionSort _ _).mem_iff]
    exact List.mem_dedup.mpr (hdates ▸ hd)
  have hfind : (process_synergy_data t).2.find? (fun q => q.date == d) =
      some (addCharges (dailyFor ((normalizeUsage t).map priceRow) d)) := by
    show (addSupply (dailyAgg ((normalizeUsage t).map priceRow))).find? _ = _
    rw [addSupply_dailyAgg_eq_map]
    exact find_date_in_map (fun x => rfl) _ d hd2
  have hgroup : ∀ q ∈ ((normalizeUsage t).map priceRow).filter (fun r => r.date == d),
      q.home_plan_costs = none ∧ q.midday_saver_costs = none ∧
      q.electric_vehicle_add_on_costs = none ∧ q.debs_feed_in_tariff = none := by
    intro q hq
    rcases List.mem_filter.mp hq with ⟨hqhalf, hqd⟩
    rcases List.mem_map.mp hqhalf with ⟨x, hx, rfl⟩
    have hxd : x.date = d := by simpa [priceRow] using hqd
    have hnone := hmiss x hx hxd
    simp [priceRow, hnone]
  have hzero : ∀ f : PricedRow → Option ℚ,
      (∀ q ∈ ((normalizeUsage t).map priceRow).filter (fun r => r.date == d),
        f q = none) →
      nanSumQ ((((normalizeUsage t).map priceRow).filter
        (fun r => r.date == d)).map f) = 0 := by
    intro f hf
    unfold nanSumQ
    apply List.sum_eq_zero
    intro x hx
    rcases List.mem_map.mp hx with ⟨y, hy, rfl⟩
    rcases List.mem_map.mp hy with ⟨q, hq, rfl⟩
    simp [hf q hq]
  have hz1 := hzero _ (fun q hq => (hgroup q hq).1)
  have hz2 := hzero _ (fun q hq => (hgroup q hq).2.1)
  have hz3 := hzero _ (fun q hq => (hgroup q hq).2.2.1)
  have hz4 := hzero _ (fun q hq => (hgroup q hq).2.2.2)
  rw [hfind]
  simp only [addCharges, dailyFor, hc1, hc2, hc3, hz1, hz2, hz3, hz4, zero_add]
  rfl

/-- Witness for C9 on the concrete unmatched-interval input: every cost field
of the daily row for date 4 equals that plan's supply charge (zero for the
feed-in column). -/
theorem unmatched_day_witness :
    ((process_synergy_data ⟨true, true,
          [⟨4, "99:99", some 1, some 0, some 0, "A"⟩]⟩).2.find?
        (fun q => q.date == 4)).map
        (fun q => (q.home_plan_costs, q.midday_saver_costs,
          q.electric_vehicle_add_on_costs, q.debs_feed_in_tariff)) =
      some (1160505 / 10000, 1292269 / 10000, 1292269 / 10000, 0) :=
  unmatched_day_costs_equal_supply_charges _ 4 (by decide) (by decide)

end SynergyApp
